import Mathlib

/-!
Shallow embedding of the Rubrik CDM Python SDK (`rubrik_cdm/rubrik_cdm.py`):
the `Connect` constructor and helpers (`_authorization_header`,
`_api_validation`) and the `Bootstrap` class (`setup_cluster`, its submission
retry loop and status polling loop, and `Bootstrap._api_validation`).

Python strings are Lean `String`s; Python `None`-able values are `Option`s;
Python dicts iterated with `.items()` are association lists in insertion
order; Python exceptions become explicit result constructors.  The HTTP
transport is an oracle: `setup_cluster` consumes a list of POST outcomes and
a list of polled status payloads.  An empty oracle list models a run that is
still inside the corresponding loop after that many attempts.
-/

/-- UTF-8 encoding of one character as a list of byte values, mirroring what
Python `str.encode()` produces for each code point. -/
def utf8EncodeCharNat (c : Char) : List Nat :=
  let n := c.toNat
  if n < 128 then [n]
  else if n < 2048 then [192 + n / 64, 128 + n % 64]
  else if n < 65536 then [224 + n / 4096, 128 + (n / 64) % 64, 128 + n % 64]
  else [240 + n / 262144, 128 + (n / 4096) % 64, 128 + (n / 64) % 64, 128 + n % 64]

/-- UTF-8 bytes of a string, as Python `credentials.encode()`. -/
def utf8Bytes (s : String) : List Nat :=
  s.data.flatMap utf8EncodeCharNat

/-- The base64 alphabet, index 0 to 63. -/
def base64Alphabet : List Char :=
  "ABCDEFGHIJKLMNOPQRSTUVWXYZabcdefghijklmnopqrstuvwxyz0123456789+/".data

/-- Character for a 6-bit value. -/
def b64Char (n : Nat) : Char := base64Alphabet.getD n 'A'

/-- Standard base64 of a byte list (RFC 4648, with `=` padding), as Python
`base64.b64encode`. -/
def base64EncodeBytes : List Nat → List Char
  | [] => []
  | [a] => [b64Char (a / 4), b64Char (a % 4 * 16), '=', '=']
  | [a, b] => [b64Char (a / 4), b64Char (a % 4 * 16 + b / 16), b64Char (b % 16 * 4), '=']
  | a :: b :: c :: rest =>
    b64Char (a / 4) :: b64Char (a % 4 * 16 + b / 16) ::
      b64Char (b % 16 * 4 + c / 64) :: b64Char (c % 64) :: base64EncodeBytes rest

/-- `base64.b64encode(s.encode()).decode()` of the Python code. -/
def base64Encode (s : String) : String :=
  String.mk (base64EncodeBytes (utf8Bytes s))

/-- Constructor arguments of `Connect.__init__` (each `None`-able). -/
structure ConnectArgs where
  node_ip : Option String
  username : Option String
  password : Option String
  api_token : Option String
deriving DecidableEq

/-- The environment variables `Connect.__init__` falls back to. -/
structure Env where
  env_node_ip : Option String
  env_username : Option String
  env_password : Option String
  env_token : Option String
deriving DecidableEq

/-- The attributes a successfully constructed `Connect` object carries.
A `none` field models a Python attribute that was never assigned. -/
structure ConnectState where
  node_ip : String
  username : Option String
  password : Option String
  api_token : Option String
deriving DecidableEq

/-- `x if x is not None else env_fallback`: the argument-then-environment
lookup pattern of `Connect.__init__`. -/
def firstSome (arg env : Option String) : Option String :=
  match arg with
  | some x => some x
  | none => env

/-- `Connect.__init__`: resolves node ip, then the api token, then username
and password, raising `InvalidParameterException` (the error message) when a
required value is absent both as argument and in the environment. -/
def Connect_init (args : ConnectArgs) (env : Env) : Except String ConnectState :=
  match firstSome args.node_ip env.env_node_ip with
  | none => .error "The Rubrik CDM Node IP has not been provided."
  | some nip =>
    match firstSome args.api_token env.env_token with
    | some t =>
      -- `self.api_token = api_token`; username/password attributes never set
      .ok { node_ip := nip, username := none, password := none, api_token := some t }
    | none =>
      -- `self.api_token = None`, then username and password are required
      match firstSome args.username env.env_username with
      | none => .error "The Rubrik CDM Username or an API Token has not been provided."
      | some u =>
        match firstSome args.password env.env_password with
        | none => .error "The Rubrik CDM Password or an API Token has not been provided."
        | some p =>
          .ok { node_ip := nip, username := some u, password := some p, api_token := none }

/-- `Connect._authorization_header`: Basic from `username:password` when no
api token is set, Bearer from the token otherwise.  Header mappings are
association lists in the insertion order of the Python dict literals.
(`getD ""` stands for reading `self.username`/`self.password`; on every state
produced by `Connect_init` with `api_token = none` both are assigned.) -/
def authorization_header (c : ConnectState) : List (String × String) :=
  match c.api_token with
  | none =>
    let credentials := c.username.getD "" ++ ":" ++ c.password.getD ""
    [("Content-Type", "application/json"),
     ("Accept", "application/json"),
     ("Authorization", "Basic " ++ base64Encode credentials),
     ("User-Agent", "Rubrik Python SDK v1.0.13")]
  | some t =>
    [("Content-Type", "application/json"),
     ("Accept", "application/json"),
     ("Authorization", "Bearer " ++ t),
     ("User-Agent", "Rubrik Python SDK v1.0.13")]

/-- The `api_endpoint` argument as Python receives it: a string, or a value
of any other type (`isinstance(api_endpoint, str)` is false). -/
inductive PyStr
  | str (s : String)
  | nonStr
deriving DecidableEq

/-- The four `InvalidParameterException` raise sites of `_api_validation`
(their message texts are not modelled). -/
inductive ValidationError
  | invalidVersion
  | endpointNotString
  | endpointNoLeadingSlash
  | endpointBadTrailingSlash
deriving DecidableEq

/-- Result of `_api_validation`: falls through (`ok`), raises
`InvalidParameterException`, or raises Python `IndexError` from an
out-of-range string index. -/
inductive ValidationResult
  | ok
  | invalid (e : ValidationError)
  | indexError
deriving DecidableEq

/-- Python string indexing `s[i]` with negative-index semantics:
`some` character, or `none` for the `IndexError` cases. -/
def pyIndex (cs : List Char) (i : Int) : Option Char :=
  if 0 ≤ i then cs[i.toNat]?
  else if (-i).toNat ≤ cs.length then cs[cs.length - (-i).toNat]? else none

/-- The endpoint-syntax part shared verbatim by `Connect._api_validation`
and `Bootstrap._api_validation`: requires a string, `api_endpoint[0] == "/"`,
and if `api_endpoint[-1] == "/"` then `api_endpoint[-2] == "="`. -/
def endpointSyntaxCheck (api_endpoint : PyStr) : ValidationResult :=
  match api_endpoint with
  | .nonStr => .invalid .endpointNotString
  | .str s =>
    match pyIndex s.data 0 with
    | none => .indexError
    | some c0 =>
      if c0 ≠ '/' then .invalid .endpointNoLeadingSlash
      else
        match pyIndex s.data (-1) with
        | none => .indexError
        | some clast =>
          if clast = '/' then
            match pyIndex s.data (-2) with
            | none => .indexError
            | some c2 => if c2 ≠ '=' then .invalid .endpointBadTrailingSlash else .ok
          else .ok

/-- `Connect._api_validation`: valid versions are v1, v2, internal. -/
def Connect_api_validation (api_version : String) (api_endpoint : PyStr) : ValidationResult :=
  if api_version ∉ ["v1", "v2", "internal"] then .invalid .invalidVersion
  else endpointSyntaxCheck api_endpoint

/-- `Bootstrap._api_validation`: valid versions are v1, internal. -/
def Bootstrap_api_validation (api_version : String) (api_endpoint : PyStr) : ValidationResult :=
  if api_version ∉ ["v1", "internal"] then .invalid .invalidVersion
  else endpointSyntaxCheck api_endpoint

/-- A keyword argument that Python type-checks with `isinstance`: absent
(`None`), a value of the expected type, or a value of some other type. -/
inductive PyArg (α : Type)
  | pyNone
  | val (a : α)
  | wrongType
deriving DecidableEq

/-- The `managementIpConfig` sub-dict built for each node (insertion order:
netmask, gateway, address). -/
structure ManagementIpConfig where
  netmask : String
  gateway : String
  address : String
deriving DecidableEq

/-- The `adminUserInfo` sub-dict (insertion order: password, emailAddress,
id). -/
structure AdminUserInfo where
  password : String
  emailAddress : String
  id : String
deriving DecidableEq

/-- The `bootstrap_config` payload dict, fields in insertion order;
`nodeConfigs` is the node-name-to-config dict as an association list in the
iteration order of `node_config.items()`. -/
structure BootstrapConfig where
  enableSoftwareEncryptionAtRest : Bool
  name : String
  dnsNameservers : List String
  dnsSearchDomains : List String
  ntpServers : List String
  adminUserInfo : AdminUserInfo
  nodeConfigs : List (String × ManagementIpConfig)
deriving DecidableEq

/-- Arguments of `Bootstrap.setup_cluster` (transport timeout omitted: it is
passed through to the HTTP oracle unchanged). -/
structure SetupArgs where
  cluster_name : String
  admin_email : String
  admin_password : String
  management_gateway : String
  management_subnet_mask : String
  node_config : PyArg (List (String × String))
  enable_encryption : Bool
  dns_search_domains : PyArg (List String)
  dns_nameservers : PyArg (List String)
  ntp_servers : PyArg (List String)
  wait_for_completion : Bool
deriving DecidableEq

/-- Lines 247-285 of `setup_cluster`: argument validation, defaulting, and
construction of `bootstrap_config`.  `.error` is the
`InvalidParameterException` message raised before any HTTP request. -/
def validateAndBuild (a : SetupArgs) : Except String BootstrapConfig :=
  match a.node_config with
  | .pyNone => .error "You must provide a valid dictionary for \"node_config\"."
  | .wrongType => .error "You must provide a valid dictionary for \"node_config\"."
  | .val node_config =>
    match (match a.dns_search_domains with
           | .pyNone => Except.ok ([] : List String)
           | .val l => Except.ok l
           | .wrongType =>
             Except.error "You must provide a valid list for \"dns_search_domains\".") with
    | .error e => .error e
    | .ok dns_search_domains =>
      match (match a.dns_nameservers with
             | .pyNone => Except.ok ["8.8.8.8"]
             | .val l => Except.ok l
             | .wrongType =>
               Except.error "You must provide a valid list for \"dns_nameservers\".") with
      | .error e => .error e
      | .ok dns_nameservers =>
        match (match a.ntp_servers with
               | .pyNone => Except.ok ["pool.ntp.org"]
               | .val l => Except.ok l
               | .wrongType =>
                 Except.error "You must provide a valid list for \"ntp_servers\".") with
        | .error e => .error e
        | .ok ntp_servers =>
          .ok
            { enableSoftwareEncryptionAtRest := a.enable_encryption
              name := a.cluster_name
              dnsNameservers := dns_nameservers
              dnsSearchDomains := dns_search_domains
              ntpServers := ntp_servers
              adminUserInfo :=
                { password := a.admin_password
                  emailAddress := a.admin_email
                  id := "admin" }
              nodeConfigs :=
                node_config.map fun nc =>
                  (nc.1,
                   { netmask := a.management_subnet_mask
                     gateway := a.management_gateway
                     address := nc.2 }) }

/-- Parsed JSON body of a successful bootstrap POST; only its `id` field is
read by the code. -/
structure PostResponse where
  id : String
deriving DecidableEq

/-- Outcome of one `self.post('internal', '/cluster/me/bootstrap', ...)`
attempt, as the submission loop distinguishes them: success, or an
`APICallException` whose text contains the connection-refused marker, the
already-bootstrapped marker, or neither (`otherError` carries the error
text). -/
inductive PostResult
  | success (resp : PostResponse)
  | connRefused
  | alreadyBootstrapped
  | otherError (errText : String)
deriving DecidableEq

/-- How the `while True` submission loop (lines 287-314) exits. -/
inductive SubmitResult
  | ok (resp : PostResponse)
  | returnString (s : String)
  | rubrikErr (errText : String)
  | apiCallErr (msg : String)
  | exhausted
deriving DecidableEq

/-- One pass of the submission loop per list element.  The second argument is
the value `number_of_attempts` carries into the iteration; exactly as in the
Python, the iteration immediately overwrites it with 1 inside the `try`
block before the POST, so the carried-in value is dead.  `exhausted` means
the oracle ran out while the loop was still iterating. -/
def submitLoopAux : List PostResult → Nat → SubmitResult
  | [], _ => .exhausted
  | r :: rest, _ =>
    -- `number_of_attempts = 1` runs at the top of every iteration
    let number_of_attempts := 1
    match r with
    | .success resp => .ok resp
    | .connRefused =>
      -- `number_of_attempts += 1`, `time.sleep(30)`, then the post-except check
      let number_of_attempts := number_of_attempts + 1
      if number_of_attempts = 12 then
        .apiCallErr "Unable to establish a connection to the Rubrik cluster."
      else submitLoopAux rest number_of_attempts
    | .alreadyBootstrapped =>
      .returnString "No change required. The Rubrik cluster is already bootstrapped."
    | .otherError errText =>
      -- `raise RubrikException(bootstrap_error)`
      .rubrikErr errText

/-- The submission loop from its entry point (`number_of_attempts` is
unassigned before the loop; the initial 0 is never read). -/
def submitLoop (posts : List PostResult) : SubmitResult :=
  submitLoopAux posts 0

/-- One polled status payload: the dict returned by `Bootstrap.status`, with
the two fields the loop reads. -/
structure BootstrapStatus where
  status : String
  message : String
deriving DecidableEq

/-- How the polling loop (lines 320-331) exits; the `Nat` counts the
30-second sleeps taken (one per `IN_PROGRESS` poll). -/
inductive PollOutcome
  | returned (st : BootstrapStatus) (sleeps : Nat)
  | raised (msg : String) (sleeps : Nat)
  | exhausted
deriving DecidableEq

/-- The polling loop: `IN_PROGRESS` sleeps and re-polls; `FAILURE`/`FAILED`
raises `RubrikException(status['message'])`; anything else returns the
payload.  `exhausted` means the oracle ran out while still polling. -/
def pollLoop : List BootstrapStatus → Nat → PollOutcome
  | [], _ => .exhausted
  | st :: rest, sleeps =>
    if st.status = "IN_PROGRESS" then pollLoop rest (sleeps + 1)
    else if st.status = "FAILURE" ∨ st.status = "FAILED" then .raised st.message sleeps
    else .returned st sleeps

/-- How a whole `setup_cluster` call ends. -/
inductive SetupOutcome
  | invalidParameter (msg : String)
  | returnedString (s : String)
  | rubrikError (msg : String)
  | apiCallError (msg : String)
  | returnedRequest (resp : PostResponse)
  | returnedStatus (st : BootstrapStatus) (submitSleeps pollSleeps : Nat)
  | submitExhausted
  | pollExhausted
deriving DecidableEq

/-- Sleeps taken inside the submission loop before it exited: one per
connection-refused attempt consumed. -/
def submitSleeps (posts : List PostResult) : Nat :=
  posts.countP (· = PostResult.connRefused)

/-- `Bootstrap.setup_cluster`, driven by the two transport oracles: the
successive POST outcomes and the successive polled statuses. -/
def setup_cluster (a : SetupArgs) (posts : List PostResult)
    (statuses : List BootstrapStatus) : SetupOutcome :=
  match validateAndBuild a with
  | .error msg => .invalidParameter msg
  | .ok _bootstrap_config =>
    match submitLoop posts with
    | .returnString s => .returnedString s
    | .rubrikErr e => .rubrikError e
    | .apiCallErr m => .apiCallError m
    | .exhausted => .submitExhausted
    | .ok resp =>
      -- `request_id = api_request['id']` (resp.id); polling uses the oracle
      if a.wait_for_completion then
        match pollLoop statuses 0 with
        | .returned st n => .returnedStatus st (submitSleeps posts) n
        | .raised m _ => .rubrikError m
        | .exhausted => .pollExhausted
      else .returnedRequest resp

/-! ## Helper lemmas -/

theorem pyIndex_zero (cs : List Char) : pyIndex cs 0 = cs.head? := by
  simp [pyIndex, List.head?_eq_getElem?]

theorem pyIndex_neg_one (cs : List Char) : pyIndex cs (-1) = cs.getLast? := by
  rcases cs with _ | ⟨c, t⟩
  · rfl
  · simp [pyIndex, List.getLast?_eq_getElem?]

theorem pyIndex_neg_two (cs : List Char) :
    pyIndex cs (-2) = if 2 ≤ cs.length then cs[cs.length - 2]? else none := by
  simp [pyIndex]

theorem endpointSyntaxCheck_eq (s : String) :
    endpointSyntaxCheck (PyStr.str s) =
      (match s.data.head? with
       | none => ValidationResult.indexError
       | some c0 =>
         if c0 ≠ '/' then .invalid .endpointNoLeadingSlash
         else
           match s.data.getLast? with
           | none => .indexError
           | some clast =>
             if clast = '/' then
               if 2 ≤ s.data.length then
                 match s.data[s.data.length - 2]? with
                 | none => .indexError
                 | some c2 => if c2 ≠ '=' then .invalid .endpointBadTrailingSlash else .ok
               else .indexError
             else .ok) := by
  simp only [endpointSyntaxCheck]
  rw [pyIndex_zero, pyIndex_neg_one, pyIndex_neg_two]
  by_cases h : 2 ≤ s.length <;> simp [h]

theorem esc_invalid_iff (e : PyStr) :
    (∃ err, endpointSyntaxCheck e = ValidationResult.invalid err) ↔
      (e = PyStr.nonStr ∨
       (∃ s, e = PyStr.str s ∧ s.data ≠ [] ∧ s.data.head? ≠ some '/') ∨
       (∃ s, e = PyStr.str s ∧ s.data.head? = some '/' ∧ s.data.getLast? = some '/' ∧
         2 ≤ s.length ∧ s.data[s.length - 2]? ≠ some '=')) := by
  rcases e with s | _
  · rw [endpointSyntaxCheck_eq]
    rcases h0 : s.data.head? with _ | c0
    · simp [h0, List.head?_eq_none_iff.mp h0]
    · have hne : s.data ≠ [] := by
        intro hnil
        rw [hnil] at h0
        cases h0
      by_cases hc0 : c0 = '/'
      · subst hc0
        rcases hl : s.data.getLast? with _ | cl
        · exact absurd (List.getLast?_eq_none_iff.mp hl) hne
        · by_cases hcl : cl = '/'
          · subst hcl
            by_cases h2 : 2 ≤ s.length
            · rcases hg : s.data[s.length - 2]? with _ | c2
              · have : s.data.length ≤ s.length - 2 := List.getElem?_eq_none_iff.mp hg
                have : s.length ≤ s.length - 2 := this
                omega
              · by_cases hc2 : c2 = '='
                · subst hc2
                  simp [h0, hl, h2, hg]
                · simp [h0, hl, h2, hg, hc2]
            · simp [h0, hl, h2]
          · simp [h0, hl, hcl, hne]
      · simp [h0, hc0, hne]
  · simp [endpointSyntaxCheck]

theorem esc_ok_iff (e : PyStr) :
    endpointSyntaxCheck e = ValidationResult.ok ↔
      (∃ s, e = PyStr.str s ∧ s.data.head? = some '/' ∧
        (s.data.getLast? ≠ some '/' ∨
         (2 ≤ s.length ∧ s.data[s.length - 2]? = some '='))) := by
  rcases e with s | _
  · rw [endpointSyntaxCheck_eq]
    rcases h0 : s.data.head? with _ | c0
    · simp [h0]
    · have hne : s.data ≠ [] := by
        intro hnil
        rw [hnil] at h0
        cases h0
      by_cases hc0 : c0 = '/'
      · subst hc0
        rcases hl : s.data.getLast? with _ | cl
        · exact absurd (List.getLast?_eq_none_iff.mp hl) hne
        · by_cases hcl : cl = '/'
          · subst hcl
            by_cases h2 : 2 ≤ s.length
            · rcases hg : s.data[s.length - 2]? with _ | c2
              · have hlen : s.data.length ≤ s.length - 2 := List.getElem?_eq_none_iff.mp hg
                have : s.length ≤ s.length - 2 := hlen
                omega
              · by_cases hc2 : c2 = '='
                · subst hc2
                  simp [h0, hl, h2, hg]
                · simp [h0, hl, h2, hg, hc2]
            · simp [h0, hl, h2]
          · simp [h0, hl, hcl]
      · simp [h0, hc0]
  · simp [endpointSyntaxCheck]

theorem esc_indexError_iff (e : PyStr) :
    endpointSyntaxCheck e = ValidationResult.indexError ↔
      (∃ s, e = PyStr.str s ∧ (s.data = [] ∨ s.data = ['/'])) := by
  rcases e with s | _
  · rw [endpointSyntaxCheck_eq]
    rcases h0 : s.data.head? with _ | c0
    · simp [h0, List.head?_eq_none_iff.mp h0]
    · have hne : s.data ≠ [] := by
        intro hnil
        rw [hnil] at h0
        cases h0
      have hlds : s.length = s.data.length := rfl
      by_cases hc0 : c0 = '/'
      · subst hc0
        rcases hl : s.data.getLast? with _ | cl
        · exact absurd (List.getLast?_eq_none_iff.mp hl) hne
        · by_cases hcl : cl = '/'
          · subst hcl
            by_cases h2 : 2 ≤ s.length
            · rcases hg : s.data[s.length - 2]? with _ | c2
              · have hlen : s.data.length ≤ s.length - 2 := List.getElem?_eq_none_iff.mp hg
                omega
              · have hslash : s.data ≠ ['/'] := by
                  intro hx
                  have h1 : s.data.length = 1 := by rw [hx]; rfl
                  omega
                by_cases hc2 : c2 = '='
                · subst hc2
                  simp [h0, hl, h2, hg, hne, hslash]
                · simp [h0, hl, h2, hg, hc2, hne, hslash]
            · have hone : s.data = ['/'] := by
                have hpos : 0 < s.data.length := List.length_pos.mpr hne
                have hlen1 : s.data.length = 1 := by omega
                rcases List.length_eq_one.mp hlen1 with ⟨a, ha⟩
                have ha0 : s.data.head? = some a := by rw [ha]; rfl
                rw [h0] at ha0
                injection ha0 with haeq
                rw [ha, haeq]
              simp [h0, hl, h2, hone]
          · have hslash : s.data ≠ ['/'] := by
              intro hx
              have hx2 : s.data.getLast? = some '/' := by rw [hx]; decide
              rw [hl] at hx2
              injection hx2 with h
              exact hcl h
            simp [h0, hl, hcl, hne, hslash]
      · have hslash : s.data ≠ ['/'] := by
          intro hx
          have hx2 : s.data.head? = some '/' := by rw [hx]; decide
          rw [h0] at hx2
          injection hx2 with h
          exact hc0 h
        simp [h0, hc0, hne, hslash]
  · simp [endpointSyntaxCheck]

/-- Shape of every successfully constructed `Connect` object: either the
token form (no username/password attributes) or the username/password form
(no token). -/
theorem Connect_init_shape (args : ConnectArgs) (env : Env) (c : ConnectState)
    (h : Connect_init args env = Except.ok c) :
    (∃ t, c.api_token = some t ∧ c.username = none ∧ c.password = none) ∨
    (∃ u p, c.username = some u ∧ c.password = some p ∧ c.api_token = none) := by
  unfold Connect_init at h
  split at h
  · simp at h
  · split at h
    · rw [Except.ok.injEq] at h
      subst h
      left
      exact ⟨_, rfl, rfl, rfl⟩
    · split at h
      · simp at h
      · split at h
        · simp at h
        · rw [Except.ok.injEq] at h
          subst h
          right
          exact ⟨_, _, rfl, rfl, rfl⟩

/-- A concrete valid argument record used by closed instances: exactly the
round-trip inputs of the spec (cluster c1, one node, defaulted DNS/NTP). -/
def sampleArgs : SetupArgs :=
  { cluster_name := "c1"
    admin_email := "admin@example.com"
    admin_password := "pw"
    management_gateway := "10.0.0.1"
    management_subnet_mask := "255.255.255.0"
    node_config := .val [("node1", "1.2.3.4")]
    enable_encryption := true
    dns_search_domains := .pyNone
    dns_nameservers := .pyNone
    ntp_servers := .pyNone
    wait_for_completion := true }

/-! ## Claims -/

/-- C1 (code bug): the Python resets `number_of_attempts` to 1 at the top of
every iteration of the submission loop, so after each connection-refused
failure the counter is 2 and the `number_of_attempts == 12` check never
fires: after any number of consecutive connection-refused POST failures the
loop is still running (`exhausted` oracle), whatever value the counter
carried in, and a `setup_cluster` run whose POSTs all fail with
connection-refused never raises the capped
"Unable to establish a connection to the Rubrik cluster." APICallException. -/
theorem submit_retry_cap_never_fires (n k : Nat) (a : SetupArgs)
    (cfg : BootstrapConfig) (h : validateAndBuild a = Except.ok cfg)
    (statuses : List BootstrapStatus) :
    submitLoopAux (List.replicate n PostResult.connRefused) k = SubmitResult.exhausted ∧
    setup_cluster a (List.replicate n PostResult.connRefused) statuses =
      SetupOutcome.submitExhausted := by
  have hloop : ∀ m j, submitLoopAux (List.replicate m PostResult.connRefused) j =
      SubmitResult.exhausted := by
    intro m
    induction m with
    | zero => intro j; rfl
    | succ i ih =>
      intro j
      simp only [List.replicate, submitLoopAux]
      exact ih 2
  refine ⟨hloop n k, ?_⟩
  simp [setup_cluster, h, submitLoop, hloop n 0]

/-- C1 witness: thirteen consecutive connection-refused failures leave the
loop still running and raise nothing. -/
theorem submit_retry_cap_never_fires_witness :
    submitLoopAux (List.replicate 13 PostResult.connRefused) 0 = SubmitResult.exhausted ∧
    setup_cluster sampleArgs (List.replicate 13 PostResult.connRefused) [] =
      SetupOutcome.submitExhausted :=
  submit_retry_cap_never_fires 13 0 sampleArgs
    { enableSoftwareEncryptionAtRest := true
      name := "c1"
      dnsNameservers := ["8.8.8.8"]
      dnsSearchDomains := []
      ntpServers := ["pool.ntp.org"]
      adminUserInfo := { password := "pw", emailAddress := "admin@example.com", id := "admin" }
      nodeConfigs :=
        [("node1", { netmask := "255.255.255.0", gateway := "10.0.0.1", address := "1.2.3.4" })] }
    rfl []

/-- C2: the polling loop of `setup_cluster`: an `IN_PROGRESS` status takes
one 30-second sleep and one more poll; the first `FAILURE`/`FAILED` status
raises a RubrikException carrying the server message with no further polls;
the first status that is none of these returns the payload.  In particular
`[IN_PROGRESS, IN_PROGRESS, SUCCESS]` sleeps exactly twice and returns the
SUCCESS payload, and `[FAILURE]` raises immediately with the provided
message. -/
theorem poll_loop_correct (st succ : BootstrapStatus) (rest : List BootstrapStatus)
    (n : Nat) (m : String) :
    (st.status = "IN_PROGRESS" → pollLoop (st :: rest) n = pollLoop rest (n + 1)) ∧
    (st.status = "FAILURE" ∨ st.status = "FAILED" →
      pollLoop (st :: rest) n = PollOutcome.raised st.message n) ∧
    (st.status ≠ "IN_PROGRESS" → st.status ≠ "FAILURE" → st.status ≠ "FAILED" →
      pollLoop (st :: rest) n = PollOutcome.returned st n) ∧
    (succ.status = "SUCCESS" →
      pollLoop [⟨"IN_PROGRESS", m⟩, ⟨"IN_PROGRESS", m⟩, succ] 0 =
        PollOutcome.returned succ 2) ∧
    pollLoop [⟨"FAILURE", m⟩] 0 = PollOutcome.raised m 0 := by
  refine ⟨?_, ?_, ?_, ?_, ?_⟩
  · intro h
    simp [pollLoop, h]
  · intro h
    rcases h with h | h <;> simp [pollLoop, h]
  · intro h1 h2 h3
    simp [pollLoop, h1, h2, h3]
  · intro h
    simp [pollLoop, h]
  · simp [pollLoop]

/-- C2 witness: the two concrete sequences of the claim. -/
theorem poll_loop_correct_witness :
    pollLoop [⟨"IN_PROGRESS", ""⟩, ⟨"IN_PROGRESS", ""⟩, ⟨"SUCCESS", "done"⟩] 0 =
      PollOutcome.returned ⟨"SUCCESS", "done"⟩ 2 ∧
    pollLoop [(⟨"FAILURE", "boom"⟩ : BootstrapStatus)] 0 = PollOutcome.raised "boom" 0 :=
  ⟨(poll_loop_correct ⟨"FAILURE", "boom"⟩ ⟨"SUCCESS", "done"⟩ [] 0 "").2.2.2.1 rfl,
   (poll_loop_correct ⟨"FAILURE", "boom"⟩ ⟨"SUCCESS", "done"⟩ [] 0 "boom").2.1 (Or.inl rfl)⟩

/-- C10: `_api_validation` (both the `Connect` and the `Bootstrap` copy)
indexes the endpoint without length guards: with a supported version, the
empty string hits `api_endpoint[0]` and the one-character string "/" hits
`api_endpoint[-2]`, raising IndexError instead of InvalidParameterException. -/
theorem api_validation_index_errors :
    Connect_api_validation "v1" (PyStr.str "") = ValidationResult.indexError ∧
    Connect_api_validation "v1" (PyStr.str "/") = ValidationResult.indexError ∧
    Bootstrap_api_validation "v1" (PyStr.str "") = ValidationResult.indexError ∧
    Bootstrap_api_validation "v1" (PyStr.str "/") = ValidationResult.indexError :=
  ⟨rfl, rfl, rfl, rfl⟩

/-- C3 counterexample: with a supported version, the empty endpoint (which
does not start with "/") raises IndexError, not InvalidParameterException,
so validation does not fail with InvalidParameter on every input the claim
enumerates. -/
theorem api_validation_claim_counterexample :
    Connect_api_validation "v1" (PyStr.str "") = ValidationResult.indexError :=
  rfl

/-- C3 (amended): over inputs where the indexing is in bounds the claimed
trichotomy holds: InvalidParameterException exactly for an unsupported
version, a non-string endpoint, a non-empty endpoint not starting with "/",
or an endpoint of length at least 2 ending in "/" whose preceding character
is not "="; success exactly for the remaining in-bounds inputs; and the two
out-of-bounds endpoints (the empty string and "/", under a supported
version) raise IndexError instead. -/
theorem api_validation_characterization (v : String) (e : PyStr) :
    ((∃ err, Connect_api_validation v e = ValidationResult.invalid err) ↔
      (v ∉ ["v1", "v2", "internal"] ∨ e = PyStr.nonStr ∨
       (∃ s, e = PyStr.str s ∧ s.data ≠ [] ∧ s.data.head? ≠ some '/') ∨
       (∃ s, e = PyStr.str s ∧ s.data.head? = some '/' ∧ s.data.getLast? = some '/' ∧
         2 ≤ s.length ∧ s.data[s.length - 2]? ≠ some '='))) ∧
    (Connect_api_validation v e = ValidationResult.ok ↔
      (v ∈ ["v1", "v2", "internal"] ∧
       ∃ s, e = PyStr.str s ∧ s.data.head? = some '/' ∧
         (s.data.getLast? ≠ some '/' ∨
          (2 ≤ s.length ∧ s.data[s.length - 2]? = some '=')))) ∧
    (Connect_api_validation v e = ValidationResult.indexError ↔
      (v ∈ ["v1", "v2", "internal"] ∧
       ∃ s, e = PyStr.str s ∧ (s.data = [] ∨ s.data = ['/']))) := by
  by_cases hv : v ∈ ["v1", "v2", "internal"]
  · have hv2 : ¬ v ∉ ["v1", "v2", "internal"] := not_not_intro hv
    refine ⟨?_, ?_, ?_⟩
    · rw [Connect_api_validation, if_neg hv2, esc_invalid_iff]
      simp [hv]
    · rw [Connect_api_validation, if_neg hv2, esc_ok_iff]
      simp [hv]
    · rw [Connect_api_validation, if_neg hv2, esc_indexError_iff]
      simp [hv]
  · refine ⟨?_, ?_, ?_⟩
    · rw [Connect_api_validation, if_pos hv]
      simp [hv]
    · rw [Connect_api_validation, if_pos hv]
      simp [hv]
    · rw [Connect_api_validation, if_pos hv]
      simp [hv]

/-- C3 witness: one inhabitant of each side of the characterization at
concrete inputs. -/
theorem api_validation_characterization_witness :
    Connect_api_validation "v2" (PyStr.str "/cluster/me") = ValidationResult.ok ∧
    (∃ err, Connect_api_validation "v9" (PyStr.str "/cluster/me") =
      ValidationResult.invalid err) :=
  ⟨(api_validation_characterization "v2" (PyStr.str "/cluster/me")).2.1.mpr
      ⟨by decide, "/cluster/me", rfl, by decide, Or.inl (by decide)⟩,
   (api_validation_characterization "v9" (PyStr.str "/cluster/me")).1.mpr
      (Or.inl (by decide))⟩

/-- Concrete constructed state for the token form. -/
def sampleTokenState : ConnectState :=
  { node_ip := "n", username := none, password := none, api_token := some "tok" }

/-- Concrete constructed state for the username/password form. -/
def sampleBasicState : ConnectState :=
  { node_ip := "n", username := some "user", password := some "pass", api_token := none }

/-- C4: for every constructed Connect object, with a token present the
header is exactly the Bearer header set (JSON content-type/accept, fixed
User-Agent) and the object holds no username or password at all; with no
token it is exactly the Basic header set whose authorization value is the
base64 of "username:password", and the object holds no token. -/
theorem authorization_header_correct (args : ConnectArgs) (env : Env) (c : ConnectState)
    (h : Connect_init args env = Except.ok c) :
    (∀ t, c.api_token = some t →
      authorization_header c =
        [("Content-Type", "application/json"),
         ("Accept", "application/json"),
         ("Authorization", "Bearer " ++ t),
         ("User-Agent", "Rubrik Python SDK v1.0.13")] ∧
      c.username = none ∧ c.password = none) ∧
    (c.api_token = none →
      ∃ u p, c.username = some u ∧ c.password = some p ∧
        authorization_header c =
          [("Content-Type", "application/json"),
           ("Accept", "application/json"),
           ("Authorization", "Basic " ++ base64Encode (u ++ ":" ++ p)),
           ("User-Agent", "Rubrik Python SDK v1.0.13")]) := by
  rcases Connect_init_shape args env c h with ⟨t, ht, hu, hp⟩ | ⟨u, p, hu, hp, ht⟩
  · constructor
    · intro t2 ht2
      exact ⟨by simp [authorization_header, ht2], hu, hp⟩
    · intro h0
      rw [ht] at h0
      cases h0
  · constructor
    · intro t2 ht2
      rw [ht] at ht2
      cases ht2
    · intro _
      exact ⟨u, p, hu, hp, by simp [authorization_header, ht, hu, hp]⟩

/-- C4 witness: the Bearer and Basic cases at concrete constructed states. -/
theorem authorization_header_correct_witness :
    (authorization_header sampleTokenState =
      [("Content-Type", "application/json"),
       ("Accept", "application/json"),
       ("Authorization", "Bearer " ++ "tok"),
       ("User-Agent", "Rubrik Python SDK v1.0.13")] ∧
     sampleTokenState.username = none ∧ sampleTokenState.password = none) ∧
    (∃ u p, sampleBasicState.username = some u ∧ sampleBasicState.password = some p ∧
      authorization_header sampleBasicState =
        [("Content-Type", "application/json"),
         ("Accept", "application/json"),
         ("Authorization", "Basic " ++ base64Encode (u ++ ":" ++ p)),
         ("User-Agent", "Rubrik Python SDK v1.0.13")]) :=
  ⟨(authorization_header_correct ⟨some "n", none, none, some "tok"⟩
      ⟨none, none, none, none⟩ sampleTokenState rfl).1 "tok" rfl,
   (authorization_header_correct ⟨some "n", some "user", some "pass", none⟩
      ⟨none, none, none, none⟩ sampleBasicState rfl).2 rfl⟩

/-- C5: every successfully constructed Connect object has exactly one
credential form set: username+password with no token, or a token with no
username/password; never both. -/
theorem connect_credential_invariant (args : ConnectArgs) (env : Env) (c : ConnectState)
    (h : Connect_init args env = Except.ok c) :
    (((∃ u, c.username = some u) ∧ (∃ p, c.password = some p) ∧ c.api_token = none) ∨
     ((∃ t, c.api_token = some t) ∧ c.username = none ∧ c.password = none)) ∧
    ¬ (((∃ u, c.username = some u) ∨ (∃ p, c.password = some p)) ∧
       (∃ t, c.api_token = some t)) := by
  rcases Connect_init_shape args env c h with ⟨t, ht, hu, hp⟩ | ⟨u, p, hu, hp, ht⟩
  · refine ⟨Or.inr ⟨⟨t, ht⟩, hu, hp⟩, ?_⟩
    rintro ⟨hup, -⟩
    rcases hup with ⟨u2, hu2⟩ | ⟨p2, hp2⟩
    · rw [hu] at hu2
      cases hu2
    · rw [hp] at hp2
      cases hp2
  · refine ⟨Or.inl ⟨⟨u, hu⟩, ⟨p, hp⟩, ht⟩, ?_⟩
    rintro ⟨-, t2, ht2⟩
    rw [ht] at ht2
    cases ht2

/-- C5 witness: the invariant at a concrete construction from explicit
username and password arguments. -/
theorem connect_credential_invariant_witness :
    (((∃ u, sampleBasicState.username = some u) ∧
      (∃ p, sampleBasicState.password = some p) ∧
      sampleBasicState.api_token = none) ∨
     ((∃ t, sampleBasicState.api_token = some t) ∧
      sampleBasicState.username = none ∧ sampleBasicState.password = none)) ∧
    ¬ (((∃ u, sampleBasicState.username = some u) ∨
        (∃ p, sampleBasicState.password = some p)) ∧
       (∃ t, sampleBasicState.api_token = some t)) :=
  connect_credential_invariant ⟨some "n", some "user", some "pass", none⟩
    ⟨none, none, none, none⟩ sampleBasicState rfl

/-- The bootstrap configuration `validateAndBuild` produces for
`sampleArgs`. -/
def sampleConfig : BootstrapConfig :=
  { enableSoftwareEncryptionAtRest := true
    name := "c1"
    dnsNameservers := ["8.8.8.8"]
    dnsSearchDomains := []
    ntpServers := ["pool.ntp.org"]
    adminUserInfo := { password := "pw", emailAddress := "admin@example.com", id := "admin" }
    nodeConfigs :=
      [("node1", { netmask := "255.255.255.0", gateway := "10.0.0.1", address := "1.2.3.4" })] }

/-- C6: on any run whose first POST fails with the already-bootstrapped
error, `setup_cluster` returns the literal informational string at once:
whatever further POST outcomes or statuses the transport would have
produced, none are consumed and nothing is raised. -/
theorem already_bootstrapped_short_circuit (a : SetupArgs) (cfg : BootstrapConfig)
    (h : validateAndBuild a = Except.ok cfg) (rest : List PostResult)
    (statuses : List BootstrapStatus) :
    setup_cluster a (PostResult.alreadyBootstrapped :: rest) statuses =
      SetupOutcome.returnedString
        "No change required. The Rubrik cluster is already bootstrapped." := by
  simp [setup_cluster, h, submitLoop, submitLoopAux]

/-- C6 witness: the short-circuit at concrete arguments, with a pending
successful POST and a pending FAILURE status that are never consumed. -/
theorem already_bootstrapped_short_circuit_witness :
    setup_cluster sampleArgs
      [PostResult.alreadyBootstrapped, PostResult.success ⟨"9"⟩]
      [⟨"FAILURE", "never read"⟩] =
      SetupOutcome.returnedString
        "No change required. The Rubrik cluster is already bootstrapped." :=
  already_bootstrapped_short_circuit sampleArgs sampleConfig rfl
    [PostResult.success ⟨"9"⟩] [⟨"FAILURE", "never read"⟩]

/-- C7 counterexample: an empty node-configuration dictionary passes the
check (`isinstance({}, dict)` holds), so the POST is issued and the call
completes instead of failing with InvalidParameterException. -/
theorem empty_node_config_not_rejected :
    setup_cluster { sampleArgs with node_config := PyArg.val [], wait_for_completion := false }
      [PostResult.success ⟨"1"⟩] [] = SetupOutcome.returnedRequest ⟨"1"⟩ :=
  rfl

/-- C7 (amended): `setup_cluster` rejects a missing (`None`) or non-dict
`node_config` with InvalidParameterException before any HTTP request (the
outcome is the same whatever POST outcomes the transport would produce); an
empty dict, however, is accepted. -/
theorem node_config_validation (a : SetupArgs) (posts : List PostResult)
    (statuses : List BootstrapStatus)
    (h : a.node_config = PyArg.pyNone ∨ a.node_config = PyArg.wrongType) :
    setup_cluster a posts statuses =
      SetupOutcome.invalidParameter
        "You must provide a valid dictionary for \"node_config\"." := by
  rcases h with h | h <;> simp [setup_cluster, validateAndBuild, h]

/-- C7 witness: the rejection at concrete arguments with a pending
successful POST that is never consumed. -/
theorem node_config_validation_witness :
    setup_cluster { sampleArgs with node_config := PyArg.pyNone }
      [PostResult.success ⟨"1"⟩] [] =
      SetupOutcome.invalidParameter
        "You must provide a valid dictionary for \"node_config\"." :=
  node_config_validation { sampleArgs with node_config := PyArg.pyNone }
    [PostResult.success ⟨"1"⟩] [] (Or.inl rfl)

/-- C8: from cluster_name "c1", node_config {node1: 1.2.3.4} and defaulted
DNS/NTP arguments, the built payload has dnsNameservers ["8.8.8.8"],
ntpServers ["pool.ntp.org"], empty dnsSearchDomains, name "c1", and a
nodeConfigs entry for node1 whose managementIpConfig carries the supplied
netmask and gateway and address "1.2.3.4". -/
theorem bootstrap_config_roundtrip :
    validateAndBuild sampleArgs = Except.ok sampleConfig ∧
    sampleConfig.dnsNameservers = ["8.8.8.8"] ∧
    sampleConfig.ntpServers = ["pool.ntp.org"] ∧
    sampleConfig.dnsSearchDomains = [] ∧
    sampleConfig.name = "c1" ∧
    sampleConfig.nodeConfigs =
      [("node1", { netmask := "255.255.255.0", gateway := "10.0.0.1", address := "1.2.3.4" })] :=
  ⟨rfl, rfl, rfl, rfl, rfl, rfl⟩

/-- C9 counterexample: an APICallException that is neither connection
refused nor already-bootstrapped is re-raised wrapped as a RubrikException
(`raise RubrikException(bootstrap_error)`), not surfaced as an APICall
error. -/
theorem other_error_not_apicall :
    setup_cluster sampleArgs [PostResult.otherError "500 Server Error"] [] =
      SetupOutcome.rubrikError "500 Server Error" :=
  rfl

/-- C9 (amended): on the first POST failure that is neither
connection-refused nor already-bootstrapped, `setup_cluster` stops
immediately — no retry, no polling, no silent recovery — and surfaces the
error as a RubrikException wrapping the original APICall error text (not as
an APICallException). -/
theorem other_apicall_error_surfaced (a : SetupArgs) (cfg : BootstrapConfig)
    (h : validateAndBuild a = Except.ok cfg) (e : String) (rest : List PostResult)
    (statuses : List BootstrapStatus) :
    setup_cluster a (PostResult.otherError e :: rest) statuses =
      SetupOutcome.rubrikError e ∧
    setup_cluster a (PostResult.otherError e :: rest) statuses ≠
      SetupOutcome.apiCallError e := by
  constructor
  · simp [setup_cluster, h, submitLoop, submitLoopAux]
  · simp [setup_cluster, h, submitLoop, submitLoopAux]

/-- C9 witness: the wrapped error at concrete arguments, with a pending
retry POST and status that are never consumed. -/
theorem other_apicall_error_surfaced_witness :
    setup_cluster sampleArgs [PostResult.otherError "boom", PostResult.success ⟨"7"⟩]
      [⟨"SUCCESS", ""⟩] = SetupOutcome.rubrikError "boom" ∧
    setup_cluster sampleArgs [PostResult.otherError "boom", PostResult.success ⟨"7"⟩]
      [⟨"SUCCESS", ""⟩] ≠ SetupOutcome.apiCallError "boom" :=
  other_apicall_error_surfaced sampleArgs sampleConfig rfl "boom"
    [PostResult.success ⟨"7"⟩] [⟨"SUCCESS", ""⟩]
